import Mathlib

/-!
Verification of the TutorTrack balance-recalculation and stats/earnings logic.

Shallow embedding of the relevant parts of the repository:
  * src/api/schema.ts        - the students / class_sessions tables
  * src/api/storage.ts       - the userId-scoped DatabaseStorage operations and
                               recalculateStudentBalance
  * the Express routes file  - POST /api/classes validation, PATCH routes,
                               GET /api/stats
  * the Earnings page        - full-history earnings aggregation

Numeric conventions: database integer columns are modelled as Int; the
JavaScript floating-point arithmetic `hourlyRate * durationMinutes / 60`
and its accumulation are modelled with exact rationals; Math.round(x) is
modelled as the floor of x + 1/2 (round half toward positive infinity).
Timestamps are modelled as integer seconds of local civil time with the
usual Unix epoch (1970-01-01, a Thursday); DST shifts are not modelled.
-/

namespace TutorTrack

/-- A row of the students table (src/api/schema.ts). -/
structure Student where
  id : String
  userId : Int
  name : String
  grade : String
  parentName : String
  parentEmail : String
  parentPhone : String
  hourlyRate : Int
  balance : Int
  totalPaid : Int
deriving DecidableEq, Repr

/-- A row of the class_sessions table (src/api/schema.ts).
The date timestamp is in seconds of local time since the Unix epoch. -/
structure ClassSession where
  id : String
  userId : Int
  date : Int
  durationMinutes : Int
  summary : String
  studentIds : List String
  status : String
  isPaid : Bool
deriving DecidableEq, Repr

/-- The persistent store: the two core tables, rows in insertion order. -/
structure St where
  students : List Student
  sessions : List ClassSession
deriving DecidableEq, Repr

/-- A Partial Student as accepted by updateStudent (drizzle .set):
every column may be present or absent. -/
structure StudentPatch where
  id : Option String := none
  userId : Option Int := none
  name : Option String := none
  grade : Option String := none
  parentName : Option String := none
  parentEmail : Option String := none
  parentPhone : Option String := none
  hourlyRate : Option Int := none
  balance : Option Int := none
  totalPaid : Option Int := none
deriving DecidableEq, Repr

/-- Apply a Partial Student to a row: present fields overwrite, absent
fields keep the stored value (SQL UPDATE ... SET semantics). -/
def applyStudentPatch (p : StudentPatch) (s : Student) : Student :=
  { id := p.id.getD s.id
    userId := p.userId.getD s.userId
    name := p.name.getD s.name
    grade := p.grade.getD s.grade
    parentName := p.parentName.getD s.parentName
    parentEmail := p.parentEmail.getD s.parentEmail
    parentPhone := p.parentPhone.getD s.parentPhone
    hourlyRate := p.hourlyRate.getD s.hourlyRate
    balance := p.balance.getD s.balance
    totalPaid := p.totalPaid.getD s.totalPaid }

/-- A Partial ClassSession as accepted by updateClassSession. -/
structure SessionPatch where
  id : Option String := none
  userId : Option Int := none
  date : Option Int := none
  durationMinutes : Option Int := none
  summary : Option String := none
  studentIds : Option (List String) := none
  status : Option String := none
  isPaid : Option Bool := none
deriving DecidableEq, Repr

/-- Apply a Partial ClassSession to a row. -/
def applySessionPatch (p : SessionPatch) (s : ClassSession) : ClassSession :=
  { id := p.id.getD s.id
    userId := p.userId.getD s.userId
    date := p.date.getD s.date
    durationMinutes := p.durationMinutes.getD s.durationMinutes
    summary := p.summary.getD s.summary
    studentIds := p.studentIds.getD s.studentIds
    status := p.status.getD s.status
    isPaid := p.isPaid.getD s.isPaid }

/-- JavaScript Math.round: round half toward positive infinity, that is
the floor of q + 1/2. -/
def jsRound (q : ℚ) : ℤ := (q + 1 / 2).floor

/-! ### DatabaseStorage operations (src/api/storage.ts), userId-scoped -/

/-- Row predicate of the WHERE and(eq(students.id, id), eq(students.userId, userId))
clause. -/
def studentMatches (id : String) (userId : Int) (s : Student) : Bool :=
  s.id == id && s.userId == userId

/-- Row predicate of the WHERE and(eq(classSessions.id, id),
eq(classSessions.userId, userId)) clause. -/
def sessionMatches (id : String) (userId : Int) (s : ClassSession) : Bool :=
  s.id == id && s.userId == userId

/-- getStudents: SELECT * FROM students WHERE user_id = userId. -/
def getStudents (userId : Int) (st : St) : List Student :=
  st.students.filter (fun s => s.userId == userId)

/-- getStudent: SELECT ... WHERE id = id AND user_id = userId, first row. -/
def getStudent (id : String) (userId : Int) (st : St) : Option Student :=
  (st.students.filter (studentMatches id userId)).head?

/-- updateStudent: UPDATE students SET ... WHERE id AND user_id; every
matching row is rewritten in place. -/
def updateStudentState (id : String) (userId : Int) (p : StudentPatch) (st : St) : St :=
  { st with students :=
      st.students.map (fun s => if studentMatches id userId s then applyStudentPatch p s else s) }

/-- The row updateStudent returns (RETURNING, first updated row). -/
def updateStudentRet (id : String) (userId : Int) (p : StudentPatch) (st : St) :
    Option Student :=
  (getStudent id userId st).map (applyStudentPatch p)

/-- deleteStudent: DELETE FROM students WHERE id AND user_id; returns
whether any row was deleted. -/
def deleteStudentState (id : String) (userId : Int) (st : St) : St :=
  { st with students := st.students.filter (fun s => !studentMatches id userId s) }

/-- getClassSessions: SELECT ... WHERE user_id = userId ORDER BY date.
The ORDER BY only permutes result order; rows are kept in stored order. -/
def getClassSessions (userId : Int) (st : St) : List ClassSession :=
  st.sessions.filter (fun s => s.userId == userId)

/-- getClassSession: first row with matching id and userId. -/
def getClassSession (id : String) (userId : Int) (st : St) : Option ClassSession :=
  (st.sessions.filter (sessionMatches id userId)).head?

/-- getClassSessionsByStudent: the user's sessions, post-filtered in JS by
s.studentIds.includes(studentId). -/
def getClassSessionsByStudent (studentId : String) (userId : Int) (st : St) :
    List ClassSession :=
  (getClassSessions userId st).filter (fun s => s.studentIds.contains studentId)

/-- The loop of storage.ts lines 135-137: accumulate
student.hourlyRate * session.durationMinutes / 60 over the unpaid sessions. -/
def unpaidBalanceQ (student : Student) (sessions : List ClassSession) : ℚ :=
  (sessions.filter (fun s => !s.isPaid)).foldl
    (fun acc s => acc + ((student.hourlyRate : ℚ) * (s.durationMinutes : ℚ)) / 60) 0

/-- The loop of storage.ts lines 141-143: the same accumulation over the
paid sessions. -/
def paidTotalQ (student : Student) (sessions : List ClassSession) : ℚ :=
  (sessions.filter (fun s => s.isPaid)).foldl
    (fun acc s => acc + ((student.hourlyRate : ℚ) * (s.durationMinutes : ℚ)) / 60) 0

/-- recalculateStudentBalance (src/api/storage.ts lines 123-149): a silent
no-op when the student does not exist; otherwise recompute balance and
totalPaid from scratch and persist them with updateStudent. -/
def recalculateStudentBalance (studentId : String) (userId : Int) (st : St) : St :=
  match getStudent studentId userId st with
  | none => st
  | some student =>
    updateStudentState studentId userId
      { balance := some (jsRound
          (unpaidBalanceQ student (getClassSessionsByStudent studentId userId st)))
        totalPaid := some (jsRound
          (paidTotalQ student (getClassSessionsByStudent studentId userId st))) } st

/-- The InsertStudent payload after insertStudentSchema (id, userId,
balance, totalPaid omitted; hourlyRate has DB default 50). -/
structure InsertStudent where
  name : String
  grade : String
  parentName : String
  parentEmail : String
  parentPhone : String
  hourlyRate : Option Int := none
deriving DecidableEq, Repr

/-- createStudent: INSERT with the request fields, the caller's userId and
the column defaults; the generated primary key is passed in explicitly. -/
def createStudent (userId : Int) (id : String) (ins : InsertStudent) (st : St) : St :=
  { st with students := st.students ++
      [{ id := id, userId := userId, name := ins.name, grade := ins.grade
         parentName := ins.parentName, parentEmail := ins.parentEmail
         parentPhone := ins.parentPhone, hourlyRate := ins.hourlyRate.getD 50
         balance := 0, totalPaid := 0 }] }

/-- The InsertClassSession payload after insertClassSessionSchema (id,
userId, date omitted; summary, status, isPaid have DB defaults). -/
structure InsertClassSession where
  durationMinutes : Int
  summary : Option String := none
  studentIds : List String
  status : Option String := none
  isPaid : Option Bool := none
deriving DecidableEq, Repr

/-- The session row produced by INSERT INTO class_sessions for an
InsertClassSession, with the DB defaults (date defaults to now). -/
def insertedSession (userId : Int) (id : String) (now : Int)
    (ins : InsertClassSession) : ClassSession :=
  { id := id, userId := userId, date := now
    durationMinutes := ins.durationMinutes
    summary := ins.summary.getD ""
    studentIds := ins.studentIds
    status := ins.status.getD "completed"
    isPaid := ins.isPaid.getD false }

/-- createClassSession (storage.ts lines 151-161): insert the row, then
recalculate the balance of every student listed on it. -/
def createClassSession (userId : Int) (id : String) (now : Int)
    (ins : InsertClassSession) (st : St) : St :=
  let session := insertedSession userId id now ins
  let st1 : St := { st with sessions := st.sessions ++ [session] }
  session.studentIds.foldl
    (fun acc sid => recalculateStudentBalance sid userId acc) st1

/-- updateClassSession (storage.ts lines 163-177): rewrite the matching
row, and if one was matched, recalculate the balance of every student in
the updated row's studentIds. Returns the updated row and the new state. -/
def updateClassSession (id : String) (userId : Int) (p : SessionPatch) (st : St) :
    Option ClassSession × St :=
  let rewritten : List ClassSession :=
    st.sessions.map (fun s => if sessionMatches id userId s then applySessionPatch p s else s)
  let st1 : St := { st with sessions := rewritten }
  match (st.sessions.filter (sessionMatches id userId)).head? with
  | none => (none, st1)
  | some s0 =>
    let session := applySessionPatch p s0
    let st2 := session.studentIds.foldl
      (fun acc sid => recalculateStudentBalance sid userId acc) st1
    (some session, st2)

/-! ### Local-time calendar (JavaScript Date, DST ignored) -/

/-- Days since the epoch of a timestamp (floor division; Int division in
Lean is Euclidean, which floors for a positive divisor). -/
def dayIndex (t : Int) : Int := t / 86400

/-- JavaScript getDay: 0 = Sunday. The epoch day 1970-01-01 was a
Thursday, hence the offset 4. -/
def dayOfWeek (t : Int) : Int := (dayIndex t + 4) % 7

/-- Civil date (year, month, day) of a day index, Howard Hinnant's
civil-from-days algorithm; models Date.getFullYear/getMonth/getDate. -/
def civilFromDays (z0 : Int) : Int × Int × Int :=
  let z := z0 + 719468
  let era := z / 146097
  let doe := z - era * 146097
  let yoe := (doe - doe / 1460 + doe / 36524 - doe / 146096) / 365
  let y := yoe + era * 400
  let doy := doe - (365 * yoe + yoe / 4 - yoe / 100)
  let mp := (5 * doy + 2) / 153
  let d := doy - (153 * mp + 2) / 5 + 1
  let m := mp + (if mp < 10 then 3 else -9)
  (if m ≤ 2 then y + 1 else y, m, d)

/-- Day index of a civil date, Hinnant's days-from-civil algorithm. -/
def daysFromCivil (y m d : Int) : Int :=
  let y1 := if m ≤ 2 then y - 1 else y
  let era := y1 / 400
  let yoe := y1 - era * 400
  let mp := (m + 9) % 12
  let doy := (153 * mp + 2) / 5 + d - 1
  let doe := yoe * 365 + yoe / 4 - yoe / 100 + doy
  era * 146097 + doe - 719468

/-- new Date(now.getFullYear(), now.getMonth(), 1): midnight on the first
of the current month. -/
def startOfMonth (now : Int) : Int :=
  let c := civilFromDays (dayIndex now)
  daysFromCivil c.1 c.2.1 1 * 86400

/-- The stats startOfWeek: new Date(now) followed by
setDate(now.getDate() - now.getDay()). setDate only moves the calendar
day, so the time of day of now is preserved. -/
def startOfWeek (now : Int) : Int := now - dayOfWeek now * 86400

/-- The classesThisWeek filter predicate: new Date(c.date) >= startOfWeek. -/
def inThisWeek (now : Int) (date : Int) : Bool := startOfWeek now ≤ date

/-- The classesThisMonth filter predicate: new Date(c.date) >= startOfMonth. -/
def inThisMonth (now : Int) (date : Int) : Bool := startOfMonth now ≤ date

/-- The JSON object returned by GET /api/stats. -/
structure Stats where
  totalStudents : Nat
  classesThisWeek : Nat
  revenueThisMonth : Int
  unpaidCount : Nat
deriving DecidableEq, Repr

/-- The inner loop of the stats revenue accumulation: for each sid of the
session, students.find(s => s.id === sid); a hit adds
hourlyRate * durationMinutes / 60, a miss adds nothing. -/
def sessionRevenueInto (students : List Student) (c : ClassSession) (acc : ℚ) : ℚ :=
  c.studentIds.foldl
    (fun a sid =>
      match students.find? (fun s => s.id == sid) with
      | some student => a + ((student.hourlyRate : ℚ) * (c.durationMinutes : ℚ)) / 60
      | none => a) acc

/-- GET /api/stats (routes file): week and month windows, revenue over the
month window, unpaid count over all sessions. -/
def getStats (now : Int) (students : List Student) (classes : List ClassSession) :
    Stats :=
  let classesThisWeek := classes.filter (fun c => inThisWeek now c.date)
  let classesThisMonth := classes.filter (fun c => inThisMonth now c.date)
  let revenueThisMonth := classesThisMonth.foldl
    (fun acc c => sessionRevenueInto students c acc) 0
  { totalStudents := students.length
    classesThisWeek := classesThisWeek.length
    revenueThisMonth := jsRound revenueThisMonth
    unpaidCount := (classes.filter (fun c => !c.isPaid)).length }

/-! ### POST /api/classes (routes file) -/

/-- Value constraints enforced by insertClassSessionSchema
(createInsertSchema(classSessions).omit with no added refinements) beyond
the field types and required-ness already captured by InsertClassSession:
there are none — in particular no positivity bound on durationMinutes. -/
def insertClassSessionChecks (_ : InsertClassSession) : Bool := true

/-- POST /api/classes: zod-parse the body, then createClassSession; a
ZodError is surfaced as status 400 with the state unchanged, success as
status 201. -/
def postClasses (userId : Int) (id : String) (now : Int)
    (ins : InsertClassSession) (st : St) : Nat × St :=
  if insertClassSessionChecks ins then
    (201, createClassSession userId id now ins st)
  else
    (400, st)

/-! ### Earnings page (full-history aggregation) -/

namespace Earnings

/-- The per-session inner loop of the Earnings page: sessionTotal over the
session's studentIds, unmatched ids skipped. -/
def sessionTotal (allStudents : List Student) (c : ClassSession) : ℚ :=
  c.studentIds.foldl
    (fun acc sid =>
      match allStudents.find? (fun s => s.id == sid) with
      | some student => acc + ((student.hourlyRate : ℚ) * (c.durationMinutes : ℚ)) / 60
      | none => acc) 0

/-- totalEarned: reduce over all sessions of the per-session total. -/
def totalEarned (allStudents : List Student) (allClasses : List ClassSession) : ℚ :=
  allClasses.foldl (fun sum c => sum + sessionTotal allStudents c) 0

/-- totalPaid: the same reduce over the paid sessions only. -/
def totalPaid (allStudents : List Student) (allClasses : List ClassSession) : ℚ :=
  (allClasses.filter (fun c => c.isPaid)).foldl
    (fun sum c => sum + sessionTotal allStudents c) 0

/-- totalUnpaid = totalEarned - totalPaid. -/
def totalUnpaid (allStudents : List Student) (allClasses : List ClassSession) : ℚ :=
  totalEarned allStudents allClasses - totalPaid allStudents allClasses

/-- The spec's direct unpaid-only sum (section 4.3 wording): the identical
per-session formula summed over the unpaid sessions only. Stated from the
spec for comparison with totalUnpaid. -/
def unpaidDirect (allStudents : List Student) (allClasses : List ClassSession) : ℚ :=
  (allClasses.filter (fun c => !c.isPaid)).foldl
    (fun sum c => sum + sessionTotal allStudents c) 0

end Earnings

/-! ### Storage operation sequences (for the per-user isolation property) -/

/-- A storage mutation as issued by the API routes on behalf of the
authenticated user. Generated primary keys and the insert timestamp are
made explicit inputs. -/
inductive Op where
  | opCreateStudent (id : String) (ins : InsertStudent)
  | opUpdateStudent (id : String) (p : StudentPatch)
  | opDeleteStudent (id : String)
  | opCreateSession (id : String) (now : Int) (ins : InsertClassSession)
  | opUpdateSession (id : String) (p : SessionPatch)
  | opRecalc (studentId : String)
deriving DecidableEq, Repr

/-- Run one operation with the given authenticated userId. -/
def applyOp (userId : Int) (op : Op) (st : St) : St :=
  match op with
  | .opCreateStudent id ins => createStudent userId id ins st
  | .opUpdateStudent id p => updateStudentState id userId p st
  | .opDeleteStudent id => deleteStudentState id userId st
  | .opCreateSession id now ins => createClassSession userId id now ins st
  | .opUpdateSession id p => (updateClassSession id userId p st).2
  | .opRecalc studentId => recalculateStudentBalance studentId userId st

/-- Run a sequence of operations with the given authenticated userId. -/
def runOps (userId : Int) (ops : List Op) (st : St) : St :=
  ops.foldl (fun acc op => applyOp userId op acc) st

/-- An update payload that does not set the userId column. The PATCH
routes pass request bodies through unvalidated, so a payload may set
userId; this predicate singles out the ones that do not. -/
def Op.keepsOwner : Op → Bool
  | .opUpdateStudent _ p => p.userId == none
  | .opUpdateSession _ p => p.userId == none
  | _ => true

/-- The alternative computation the spec rules out, stated from the spec's
words (round each per-session amount first, then sum the rounded amounts);
to be compared with the aggregate-then-round computation of the code. -/
def perSessionRoundedBalance (student : Student) (sessions : List ClassSession) : ℤ :=
  ((sessions.filter (fun s => !s.isPaid)).map
    (fun s => jsRound (((student.hourlyRate : ℚ) * (s.durationMinutes : ℚ)) / 60))).sum

/-! ### Concrete fixtures used by individual claims -/

/-- Fixture: a student at hourlyRate 50. -/
def w1stu : Student :=
  { id := "s", userId := 1, name := "Ada", grade := "5", parentName := "P"
    parentEmail := "p@x", parentPhone := "1", hourlyRate := 50, balance := 0, totalPaid := 0 }

/-- Fixture: a 60-minute unpaid session for w1stu. -/
def w1sessA : ClassSession :=
  { id := "A", userId := 1, date := 0, durationMinutes := 60, summary := ""
    studentIds := ["s"], status := "completed", isPaid := false }

/-- Fixture: a 30-minute paid session for w1stu. -/
def w1sessB : ClassSession :=
  { id := "B", userId := 1, date := 0, durationMinutes := 30, summary := ""
    studentIds := ["s"], status := "completed", isPaid := true }

/-- Fixture store for the C1 witness. -/
def w1st : St := { students := [w1stu], sessions := [w1sessA, w1sessB] }

/-- Fixture: a student at hourlyRate 7 (spec section 8 rounding case). -/
def c2Stu : Student :=
  { id := "s1", userId := 1, name := "Bo", grade := "4", parentName := "P"
    parentEmail := "p@x", parentPhone := "1", hourlyRate := 7, balance := 0, totalPaid := 0 }

/-- Fixture: a 10-minute unpaid session for c2Stu. -/
def c2a : ClassSession :=
  { id := "a", userId := 1, date := 0, durationMinutes := 10, summary := ""
    studentIds := ["s1"], status := "completed", isPaid := false }

/-- Fixture: second 10-minute unpaid session. -/
def c2b : ClassSession := { c2a with id := "b" }

/-- Fixture: third 10-minute unpaid session. -/
def c2c : ClassSession := { c2a with id := "c" }

/-- Fixture store with three 10-minute unpaid sessions at rate 7. -/
def c2St : St := { students := [c2Stu], sessions := [c2a, c2b, c2c] }

/-- Fixture: a session dated Sunday 1970-01-04 00:00:00 local time
(timestamp 259200), the start of the week containing Wednesday
1970-01-07 12:00:00 (timestamp 561600). -/
def c3sess : ClassSession :=
  { id := "w", userId := 1, date := 259200, durationMinutes := 60, summary := ""
    studentIds := ["s"], status := "completed", isPaid := false }

/-- Fixture: a create-class request with zero durationMinutes. -/
def c6req : InsertClassSession := { durationMinutes := 0, studentIds := ["stu"] }

/-- Fixture: a student for the deleted-student resilience witness. -/
def c7stu : Student :=
  { id := "x", userId := 1, name := "Cy", grade := "6", parentName := "P"
    parentEmail := "p@x", parentPhone := "1", hourlyRate := 30, balance := 0, totalPaid := 0 }

/-- Fixture: a session listing the live student and a deleted id. -/
def c7sess : ClassSession :=
  { id := "g", userId := 1, date := 0, durationMinutes := 60, summary := ""
    studentIds := ["x", "gone"], status := "completed", isPaid := false }

/-- Fixture: a student owned by user 1. -/
def c9stu : Student :=
  { id := "a", userId := 1, name := "Di", grade := "7", parentName := "P"
    parentEmail := "p@x", parentPhone := "1", hourlyRate := 50, balance := 0, totalPaid := 0 }

/-- Fixture store for the isolation counterexample. -/
def c9st : St := { students := [c9stu], sessions := [] }

/-- Fixture: student X with a pre-existing (stale) balance. -/
def c10x : Student :=
  { id := "x", userId := 1, name := "Ed", grade := "8", parentName := "P"
    parentEmail := "p@x", parentPhone := "1", hourlyRate := 40, balance := 77, totalPaid := 5 }

/-- Fixture: student Y sharing the session with X. -/
def c10y : Student :=
  { id := "y", userId := 1, name := "Fi", grade := "8", parentName := "P"
    parentEmail := "p@x", parentPhone := "1", hourlyRate := 60, balance := 0, totalPaid := 0 }

/-- Fixture: a group session listing X and Y. -/
def c10sess : ClassSession :=
  { id := "c", userId := 1, date := 0, durationMinutes := 90, summary := ""
    studentIds := ["x", "y"], status := "completed", isPaid := false }

/-- Fixture store for the stale-balance witness. -/
def c10st : St := { students := [c10x, c10y], sessions := [c10sess] }

/-- Fixture: a sequence of ordinary operations run as user 1, none of
whose update payloads sets userId. -/
def c9ops : List Op :=
  [Op.opCreateSession "k" 99 { durationMinutes := 45, studentIds := ["a"] },
   Op.opUpdateSession "k" { isPaid := some true },
   Op.opRecalc "a",
   Op.opCreateStudent "n"
     { name := "W", grade := "1", parentName := "P", parentEmail := "e", parentPhone := "1" },
   Op.opUpdateStudent "a" { hourlyRate := some 60 },
   Op.opDeleteStudent "n"]

/-! ### General helper lemmas -/

lemma opt_getD_getD {α : Type} (o : Option α) (x : α) : o.getD (o.getD x) = o.getD x := by
  cases o <;> rfl

lemma list_head?_map {α β : Type} (f : α → β) (l : List α) :
    (l.map f).head? = l.head?.map f := by
  cases l <;> rfl

lemma filter_map_invariant {α : Type} (f : α → α) (q : α → Bool)
    (h1 : ∀ a, q a = true → f a = a) (h2 : ∀ a, q (f a) = q a) :
    ∀ l : List α, (l.map f).filter q = l.filter q := by
  intro l
  induction l with
  | nil => rfl
  | cons a t ih =>
    cases hq : q a with
    | true => simp [List.filter_cons, h2, hq, h1 a hq, ih]
    | false => simp [List.filter_cons, h2, hq, ih]

lemma filter_filter_sub {α : Type} (q r : α → Bool) (h : ∀ a, q a = true → r a = true) :
    ∀ l : List α, (l.filter r).filter q = l.filter q := by
  intro l
  induction l with
  | nil => rfl
  | cons a t ih =>
    cases hr : r a with
    | true => cases hq : q a <;> simp [List.filter_cons, hr, hq, ih]
    | false =>
      have hq : q a = false := by
        cases hqa : q a with
        | true => exact absurd (h a hqa) (by simp [hr])
        | false => rfl
      simp [List.filter_cons, hr, hq, ih]

lemma foldl_add_eq_sum {α : Type} (g : α → ℚ) :
    ∀ (l : List α) (a : ℚ), l.foldl (fun acc x => acc + g x) a = a + (l.map g).sum := by
  intro l
  induction l with
  | nil => intro a; simp
  | cons x t ih => intro a; simp [ih]; ring

lemma sum_map_filter_split {α : Type} (g : α → ℚ) (p : α → Bool) :
    ∀ l : List α,
      (l.map g).sum =
        ((l.filter p).map g).sum + ((l.filter (fun x => !p x)).map g).sum := by
  intro l
  induction l with
  | nil => simp
  | cons x t ih =>
    cases hp : p x <;> simp [List.filter_cons, hp, ih] <;> ring

/-! ### Lemmas about patches and row updates -/

lemma studentMatches_patch (id : String) (u : Int) (p : StudentPatch)
    (h1 : p.id = none) (h2 : p.userId = none) (s : Student) :
    studentMatches id u (applyStudentPatch p s) = studentMatches id u s := by
  simp [studentMatches, applyStudentPatch, h1, h2]

lemma applyStudentPatch_idem (p : StudentPatch) (s : Student) :
    applyStudentPatch p (applyStudentPatch p s) = applyStudentPatch p s := by
  simp [applyStudentPatch, opt_getD_getD]

lemma updateStudentState_sessions (id : String) (u : Int) (p : StudentPatch) (st : St) :
    (updateStudentState id u p st).sessions = st.sessions := rfl

lemma filter_update_rows (id : String) (u : Int) (p : StudentPatch)
    (h1 : p.id = none) (h2 : p.userId = none) :
    ∀ l : List Student,
      (l.map (fun s => if studentMatches id u s then applyStudentPatch p s else s)).filter
          (studentMatches id u)
        = (l.filter (studentMatches id u)).map (applyStudentPatch p) := by
  intro l
  induction l with
  | nil => rfl
  | cons a t ih =>
    cases ha : studentMatches id u a with
    | true =>
      simp [List.filter_cons, ha, studentMatches_patch id u p h1 h2, ih]
    | false =>
      simp [List.filter_cons, ha, studentMatches_patch id u p h1 h2, ih]

lemma getStudent_updateStudentState_self (id : String) (u : Int) (p : StudentPatch)
    (h1 : p.id = none) (h2 : p.userId = none) (st : St) :
    getStudent id u (updateStudentState id u p st) =
      (getStudent id u st).map (applyStudentPatch p) := by
  unfold getStudent updateStudentState
  rw [filter_update_rows id u p h1 h2, list_head?_map]

lemma getClassSessionsByStudent_updateStudentState (sid : String) (u : Int)
    (id : String) (u' : Int) (p : StudentPatch) (st : St) :
    getClassSessionsByStudent sid u (updateStudentState id u' p st)
      = getClassSessionsByStudent sid u st := rfl

lemma unpaidBalanceQ_rate (s1 s2 : Student) (h : s1.hourlyRate = s2.hourlyRate)
    (l : List ClassSession) : unpaidBalanceQ s1 l = unpaidBalanceQ s2 l := by
  simp [unpaidBalanceQ, h]

lemma paidTotalQ_rate (s1 s2 : Student) (h : s1.hourlyRate = s2.hourlyRate)
    (l : List ClassSession) : paidTotalQ s1 l = paidTotalQ s2 l := by
  simp [paidTotalQ, h]

lemma updateStudentState_idem (id : String) (u : Int) (p : StudentPatch)
    (h1 : p.id = none) (h2 : p.userId = none) (st : St) :
    updateStudentState id u p (updateStudentState id u p st)
      = updateStudentState id u p st := by
  unfold updateStudentState
  congr 1
  simp only [List.map_map]
  apply List.map_congr_left
  intro a _
  simp only [Function.comp]
  cases ha : studentMatches id u a with
  | true =>
    simp [ha, studentMatches_patch id u p h1 h2, applyStudentPatch_idem]
  | false =>
    simp [ha]

/-! ### Lemmas about recalculateStudentBalance -/

lemma recalc_sessions (sid : String) (u : Int) (st : St) :
    (recalculateStudentBalance sid u st).sessions = st.sessions := by
  unfold recalculateStudentBalance
  cases h : getStudent sid u st with
  | none => rfl
  | some stu => rfl

lemma recalcFold_sessions (u : Int) (sids : List String) :
    ∀ st : St,
      (sids.foldl (fun acc sid => recalculateStudentBalance sid u acc) st).sessions
        = st.sessions := by
  induction sids with
  | nil => intro st; rfl
  | cons sid t ih =>
    intro st
    simp only [List.foldl_cons]
    rw [ih, recalc_sessions]

lemma updateStudentState_filter_frame (id : String) (u : Int) (p : StudentPatch)
    (q : Student → Bool)
    (hmiss : ∀ s, q s = true → studentMatches id u s = false)
    (hdep : ∀ s, studentMatches id u s = true → q (applyStudentPatch p s) = q s)
    (st : St) :
    (updateStudentState id u p st).students.filter q = st.students.filter q := by
  unfold updateStudentState
  apply filter_map_invariant
  · intro a ha
    simp [hmiss a ha]
  · intro a
    cases ha : studentMatches id u a with
    | true => simp [ha, hdep a ha]
    | false => simp [ha]

lemma recalc_filter_frame (sid : String) (u : Int) (q : Student → Bool)
    (hmiss : ∀ s, q s = true → studentMatches sid u s = false)
    (hdep : ∀ p : StudentPatch, p.id = none → p.userId = none →
      ∀ s, q (applyStudentPatch p s) = q s)
    (st : St) :
    (recalculateStudentBalance sid u st).students.filter q = st.students.filter q := by
  unfold recalculateStudentBalance
  cases h : getStudent sid u st with
  | none => rfl
  | some stu =>
    apply updateStudentState_filter_frame sid u _ q hmiss
    intro s _
    exact hdep _ rfl rfl s

lemma recalcFold_filter_frame (u : Int) (q : Student → Bool)
    (hdep : ∀ p : StudentPatch, p.id = none → p.userId = none →
      ∀ s, q (applyStudentPatch p s) = q s)
    (sids : List String)
    (hmiss : ∀ sid ∈ sids, ∀ s, q s = true → studentMatches sid u s = false) :
    ∀ st : St,
      ((sids.foldl (fun acc sid => recalculateStudentBalance sid u acc) st)).students.filter q
        = st.students.filter q := by
  induction sids with
  | nil => intro st; rfl
  | cons sid t ih =>
    intro st
    simp only [List.foldl_cons]
    rw [ih (fun s hs => hmiss s (List.mem_cons_of_mem sid hs)),
      recalc_filter_frame sid u q (hmiss sid (List.mem_cons_self sid t)) hdep]

lemma recalc_none (st : St) (sid : String) (u : Int)
    (h : getStudent sid u st = none) :
    recalculateStudentBalance sid u st = st := by
  simp [recalculateStudentBalance, h]

lemma recalc_some (st : St) (sid : String) (u : Int) (stu : Student)
    (h : getStudent sid u st = some stu) :
    recalculateStudentBalance sid u st =
      updateStudentState sid u
        { balance := some (jsRound
            (unpaidBalanceQ stu (getClassSessionsByStudent sid u st)))
          totalPaid := some (jsRound
            (paidTotalQ stu (getClassSessionsByStudent sid u st))) } st := by
  simp [recalculateStudentBalance, h]

lemma jsRound_eq_floor (q : ℚ) : jsRound q = ⌊q + 1 / 2⌋ := by
  rw [jsRound, Rat.floor_def', ← Rat.floor_def]

lemma createClassSession_sessions (u : Int) (id : String) (now : Int)
    (ins : InsertClassSession) (st : St) :
    (createClassSession u id now ins st).sessions
      = st.sessions ++ [insertedSession u id now ins] := by
  unfold createClassSession
  rw [recalcFold_sessions]

lemma getStudent_recalc_self (st : St) (sid : String) (u : Int) (stu : Student)
    (h : getStudent sid u st = some stu) :
    getStudent sid u (recalculateStudentBalance sid u st) =
      some { stu with
        balance := jsRound (unpaidBalanceQ stu (getClassSessionsByStudent sid u st))
        totalPaid := jsRound (paidTotalQ stu (getClassSessionsByStudent sid u st)) } := by
  rw [recalc_some st sid u stu h,
    getStudent_updateStudentState_self sid u _ rfl rfl, h]
  rfl

lemma find?_id_none {students : List Student} {sid : String}
    (h : ∀ s ∈ students, s.id ≠ sid) :
    students.find? (fun s => s.id == sid) = none := by
  rw [List.find?_eq_none]
  intro s hs
  simpa using h s hs

lemma sessionRevenueInto_skip (students : List Student) (c : ClassSession)
    (sid : String) (l1 l2 : List String)
    (hc : c.studentIds = l1 ++ sid :: l2)
    (hmiss : students.find? (fun s => s.id == sid) = none) (acc : ℚ) :
    sessionRevenueInto students c acc
      = sessionRevenueInto students { c with studentIds := l1 ++ l2 } acc := by
  simp only [sessionRevenueInto, hc]
  rw [List.foldl_append, List.foldl_append, List.foldl_cons]
  simp [hmiss]

lemma sessionTotal_skip (students : List Student) (c : ClassSession)
    (sid : String) (l1 l2 : List String)
    (hc : c.studentIds = l1 ++ sid :: l2)
    (hmiss : students.find? (fun s => s.id == sid) = none) :
    Earnings.sessionTotal students c
      = Earnings.sessionTotal students { c with studentIds := l1 ++ l2 } := by
  simp only [Earnings.sessionTotal, hc]
  rw [List.foldl_append, List.foldl_append, List.foldl_cons]
  simp [hmiss]

lemma filter_length_congr_mid {α : Type} (p : α → Bool) (pre post : List α)
    (c c' : α) (hp : p c' = p c) :
    ((pre ++ c :: post).filter p).length = ((pre ++ c' :: post).filter p).length := by
  rw [List.filter_append, List.filter_append, List.filter_cons, List.filter_cons, hp]
  cases p c <;> simp

lemma revenueFold_congr_mid (students : List Student) (p : ClassSession → Bool)
    (pre post : List ClassSession) (c c' : ClassSession) (hp : p c' = p c)
    (hrev : ∀ acc, sessionRevenueInto students c acc = sessionRevenueInto students c' acc) :
    ((pre ++ c :: post).filter p).foldl (fun acc s => sessionRevenueInto students s acc) 0
      = ((pre ++ c' :: post).filter p).foldl
          (fun acc s => sessionRevenueInto students s acc) 0 := by
  rw [List.filter_append, List.filter_append, List.filter_cons, List.filter_cons, hp]
  cases hb : p c with
  | false => simp [hb]
  | true =>
    simp only [hb, if_true]
    rw [List.foldl_append, List.foldl_append, List.foldl_cons, List.foldl_cons, hrev]

lemma earningsFold_congr_mid (students : List Student)
    (pre post : List ClassSession) (c c' : ClassSession)
    (hst : Earnings.sessionTotal students c = Earnings.sessionTotal students c') :
    (pre ++ c :: post).foldl (fun sum s => sum + Earnings.sessionTotal students s) 0
      = (pre ++ c' :: post).foldl (fun sum s => sum + Earnings.sessionTotal students s) 0 := by
  rw [List.foldl_append, List.foldl_append, List.foldl_cons, List.foldl_cons, hst]

lemma getStats_congr_mid (now : Int) (students : List Student)
    (pre post : List ClassSession) (c c' : ClassSession)
    (hdate : c'.date = c.date) (hpaid : c'.isPaid = c.isPaid)
    (hrev : ∀ acc, sessionRevenueInto students c acc = sessionRevenueInto students c' acc) :
    getStats now students (pre ++ c :: post) = getStats now students (pre ++ c' :: post) := by
  simp only [getStats, Stats.mk.injEq]
  refine ⟨trivial, ?_, ?_, ?_⟩
  · exact filter_length_congr_mid _ pre post c c' (by simp [inThisWeek, hdate])
  · exact congrArg jsRound
      (revenueFold_congr_mid students _ pre post c c' (by simp [inThisMonth, hdate]) hrev)
  · exact filter_length_congr_mid _ pre post c c' (by simp [hpaid])

lemma totalEarned_congr_mid (students : List Student)
    (pre post : List ClassSession) (c c' : ClassSession)
    (hst : Earnings.sessionTotal students c = Earnings.sessionTotal students c') :
    Earnings.totalEarned students (pre ++ c :: post)
      = Earnings.totalEarned students (pre ++ c' :: post) := by
  simp only [Earnings.totalEarned]
  exact earningsFold_congr_mid students pre post c c' hst

lemma totalPaid_congr_mid (students : List Student)
    (pre post : List ClassSession) (c c' : ClassSession)
    (hpaid : c'.isPaid = c.isPaid)
    (hst : Earnings.sessionTotal students c = Earnings.sessionTotal students c') :
    Earnings.totalPaid students (pre ++ c :: post)
      = Earnings.totalPaid students (pre ++ c' :: post) := by
  simp only [Earnings.totalPaid]
  rw [List.filter_append, List.filter_append, List.filter_cons, List.filter_cons, hpaid]
  cases hb : c.isPaid with
  | false => simp [hb]
  | true =>
    simp only [hb, if_true]
    rw [List.foldl_append, List.foldl_append, List.foldl_cons, List.foldl_cons, hst]

lemma head?_filter_prop {α : Type} (p : α → Bool) (l : List α) (a : α)
    (h : (l.filter p).head? = some a) : p a = true := by
  cases hf : l.filter p with
  | nil => rw [hf] at h; cases h
  | cons b t =>
    rw [hf] at h
    have hb := Option.some.inj h
    subst hb
    have hm : b ∈ l.filter p := by rw [hf]; exact List.mem_cons_self b t
    exact (List.mem_filter.mp hm).2

/-! ### Lemmas for the per-user isolation property -/

lemma studentMatches_false_of_other (sid : String) (u v : Int) (hv : v ≠ u)
    (s : Student) (hq : (s.userId == v) = true) :
    studentMatches sid u s = false := by
  simp only [beq_iff_eq] at hq
  simp [studentMatches, hq, hv]

lemma sessionMatches_false_of_other (sid : String) (u v : Int) (hv : v ≠ u)
    (s : ClassSession) (hq : (s.userId == v) = true) :
    sessionMatches sid u s = false := by
  simp only [beq_iff_eq] at hq
  simp [sessionMatches, hq, hv]

lemma patch_userId_frame (v : Int) (p : StudentPatch) (h2 : p.userId = none)
    (s : Student) : ((applyStudentPatch p s).userId == v) = (s.userId == v) := by
  simp [applyStudentPatch, h2]

lemma recalcFold_getStudents_frame (u v : Int) (hv : v ≠ u) (sids : List String)
    (st : St) :
    getStudents v (sids.foldl (fun acc sid => recalculateStudentBalance sid u acc) st)
      = getStudents v st := by
  unfold getStudents
  rw [recalcFold_filter_frame u _ (fun p' h1 h2 s => patch_userId_frame v p' h2 s) _
    (fun sid _ s hq => studentMatches_false_of_other sid u v hv s hq)]

lemma recalcFold_getClassSessions (u v : Int) (sids : List String) (st : St) :
    getClassSessions v (sids.foldl (fun acc sid => recalculateStudentBalance sid u acc) st)
      = getClassSessions v st := by
  unfold getClassSessions
  rw [recalcFold_sessions]

lemma applyOp_other_user (u v : Int) (hv : v ≠ u) (op : Op)
    (hop : op.keepsOwner = true) (st : St) :
    getStudents v (applyOp u op st) = getStudents v st
    ∧ getClassSessions v (applyOp u op st) = getClassSessions v st := by
  have hbeq : (u == v) = false := beq_eq_false_iff_ne.mpr (Ne.symm hv)
  cases op with
  | opCreateStudent id ins =>
    refine ⟨?_, rfl⟩
    simp [getStudents, applyOp, createStudent, List.filter_append, hbeq]
  | opUpdateStudent id p =>
    have hpn : p.userId = none := by simpa [Op.keepsOwner] using hop
    refine ⟨?_, rfl⟩
    exact updateStudentState_filter_frame id u p _
      (studentMatches_false_of_other id u v hv)
      (fun s _ => patch_userId_frame v p hpn s) st
  | opDeleteStudent id =>
    refine ⟨?_, rfl⟩
    apply filter_filter_sub
    intro s hq
    simp [studentMatches_false_of_other id u v hv s hq]
  | opCreateSession id now ins =>
    constructor
    · show getStudents v (createClassSession u id now ins st) = _
      unfold createClassSession
      rw [recalcFold_getStudents_frame u v hv]
      rfl
    · show getClassSessions v (createClassSession u id now ins st) = _
      unfold createClassSession
      rw [recalcFold_getClassSessions]
      simp [getClassSessions, List.filter_append, insertedSession, hbeq]
  | opUpdateSession id p =>
    have hpn : p.userId = none := by simpa [Op.keepsOwner] using hop
    have hsess :
        (st.sessions.map
            (fun s => if sessionMatches id u s then applySessionPatch p s else s)).filter
            (fun c => c.userId == v)
          = st.sessions.filter (fun c => c.userId == v) := by
      apply filter_map_invariant
      · intro a ha
        simp [sessionMatches_false_of_other id u v hv a ha]
      · intro a
        cases hm : sessionMatches id u a with
        | true => simp [hm, applySessionPatch, hpn]
        | false => simp [hm]
    show getStudents v (updateClassSession id u p st).2 = _ ∧
      getClassSessions v (updateClassSession id u p st).2 = _
    unfold updateClassSession
    cases h : (st.sessions.filter (sessionMatches id u)).head? with
    | none =>
      simp only [h]
      exact ⟨rfl, hsess⟩
    | some s0 =>
      simp only [h]
      constructor
      · exact recalcFold_getStudents_frame u v hv _ _
      · rw [recalcFold_getClassSessions]
        exact hsess
  | opRecalc sid =>
    constructor
    · exact recalc_filter_frame sid u _
        (studentMatches_false_of_other sid u v hv)
        (fun p' h1 h2 s => patch_userId_frame v p' h2 s) st
    · show getClassSessions v (recalculateStudentBalance sid u st) = _
      unfold getClassSessions
      rw [recalc_sessions]

lemma runOps_other_user (u v : Int) (hv : v ≠ u) (ops : List Op)
    (hops : ∀ op ∈ ops, op.keepsOwner = true) :
    ∀ st : St, getStudents v (runOps u ops st) = getStudents v st
      ∧ getClassSessions v (runOps u ops st) = getClassSessions v st := by
  induction ops with
  | nil => intro st; exact ⟨rfl, rfl⟩
  | cons op t ih =>
    intro st
    have h1 := applyOp_other_user u v hv op (hops op (List.mem_cons_self op t)) st
    have h2 := ih (fun o ho => hops o (List.mem_cons_of_mem op ho)) (applyOp u op st)
    exact ⟨h2.1.trans h1.1, h2.2.trans h1.2⟩

lemma getStudents_scope (u : Int) (st : St) : ∀ s ∈ getStudents u st, s.userId = u := by
  intro s hs
  simpa using (List.mem_filter.mp hs).2

lemma getClassSessions_scope (u : Int) (st : St) :
    ∀ c ∈ getClassSessions u st, c.userId = u := by
  intro c hc
  simpa using (List.mem_filter.mp hc).2

lemma getStudent_scope (id : String) (u : Int) (st : St) (s : Student)
    (h : getStudent id u st = some s) : s.userId = u := by
  have hp := head?_filter_prop _ _ _ h
  simp [studentMatches] at hp
  exact hp.2

lemma getClassSession_scope (id : String) (u : Int) (st : St) (c : ClassSession)
    (h : getClassSession id u st = some c) : c.userId = u := by
  have hp := head?_filter_prop _ _ _ h
  simp [sessionMatches] at hp
  exact hp.2

lemma getClassSessionsByStudent_scope (sid : String) (u : Int) (st : St)
    (c : ClassSession) (h : c ∈ getClassSessionsByStudent sid u st) : c.userId = u := by
  have h1 := (List.mem_filter.mp h).1
  simpa using (List.mem_filter.mp h1).2

/-! ### Claim theorems -/

/-- Claim C1: after recalculateBalance for an existing student, the stored
record carries balance = round(sum over that student's unpaid sessions of
hourlyRate * durationMinutes / 60) and totalPaid = round(the same sum over
the paid sessions); every session the student appears in contributes the
full per-session amount at that student's own hourlyRate (no group split),
and the loop accumulations equal the corresponding sums. -/
theorem recalculateBalance_persists_rounded_sums (st : St) (sid : String) (u : Int)
    (stu : Student) (h : getStudent sid u st = some stu) :
    getStudent sid u (recalculateStudentBalance sid u st) =
      some { stu with
        balance := jsRound (unpaidBalanceQ stu (getClassSessionsByStudent sid u st))
        totalPaid := jsRound (paidTotalQ stu (getClassSessionsByStudent sid u st)) }
    ∧ unpaidBalanceQ stu (getClassSessionsByStudent sid u st)
        = (((getClassSessionsByStudent sid u st).filter (fun s => !s.isPaid)).map
            (fun s => ((stu.hourlyRate : ℚ) * (s.durationMinutes : ℚ)) / 60)).sum
    ∧ paidTotalQ stu (getClassSessionsByStudent sid u st)
        = (((getClassSessionsByStudent sid u st).filter (fun s => s.isPaid)).map
            (fun s => ((stu.hourlyRate : ℚ) * (s.durationMinutes : ℚ)) / 60)).sum := by
  refine ⟨getStudent_recalc_self st sid u stu h, ?_, ?_⟩
  · rw [unpaidBalanceQ, foldl_add_eq_sum]
    simp
  · rw [paidTotalQ, foldl_add_eq_sum]
    simp

/-- Claim C4: recalculateBalance for a student id that does not exist is a
silent no-op: it returns normally (the function is total) and the state is
unchanged. -/
theorem recalculateBalance_missing_student_noop (st : St) (sid : String) (u : Int)
    (h : getStudent sid u st = none) :
    recalculateStudentBalance sid u st = st :=
  recalc_none st sid u h

/-- Witness for C4 at a concrete store with no students. -/
theorem recalculateBalance_missing_student_noop_witness :
    getStudent "ghost" 1 (St.mk [] []) = none ∧
      recalculateStudentBalance "ghost" 1 (St.mk [] []) = St.mk [] [] :=
  ⟨rfl, recalculateBalance_missing_student_noop (St.mk [] []) "ghost" 1 rfl⟩

/-- Claim C5: recalculateBalance is idempotent: a second run with no
intervening change to sessions or to the student record produces exactly
the state of the first run (balance and totalPaid included). -/
theorem recalculateBalance_idempotent (st : St) (sid : String) (u : Int) :
    recalculateStudentBalance sid u (recalculateStudentBalance sid u st)
      = recalculateStudentBalance sid u st := by
  cases h : getStudent sid u st with
  | none => rw [recalc_none st sid u h, recalc_none st sid u h]
  | some stu =>
    have hg := getStudent_recalc_self st sid u stu h
    rw [recalc_some _ sid u _ hg]
    rw [recalc_some st sid u stu h] at hg ⊢
    rw [getClassSessionsByStudent_updateStudentState,
      unpaidBalanceQ_rate _ stu rfl, paidTotalQ_rate _ stu rfl]
    exact updateStudentState_idem sid u _ rfl rfl st

/-- Witness for C1: a student at rate 50 with a 60-minute unpaid and a
30-minute paid session (spec section 8 revenue-additivity case). -/
theorem recalculateBalance_persists_rounded_sums_witness :
    getStudent "s" 1 w1st = some w1stu ∧
      getStudent "s" 1 (recalculateStudentBalance "s" 1 w1st) =
        some { w1stu with
          balance := jsRound (unpaidBalanceQ w1stu (getClassSessionsByStudent "s" 1 w1st))
          totalPaid := jsRound (paidTotalQ w1stu (getClassSessionsByStudent "s" 1 w1st)) } :=
  ⟨by decide,
    (recalculateBalance_persists_rounded_sums w1st "s" 1 w1stu (by decide)).1⟩

/-- Claim C2: per-session amounts are summed exactly and the aggregate is
rounded once at the end (for every student the persisted balance is
round of the exact rational sum); three unpaid 10-minute sessions at
hourlyRate 7 aggregate to the exact 7/2, the persisted balance is
round(7/2) = 4, while summing the per-session roundings would give 3. -/
theorem recalculateBalance_rounds_aggregate_once :
    (∀ (st : St) (sid : String) (u : Int) (stu : Student),
      getStudent sid u st = some stu →
        getStudent sid u (recalculateStudentBalance sid u st) =
          some { stu with
            balance := jsRound (unpaidBalanceQ stu (getClassSessionsByStudent sid u st))
            totalPaid := jsRound (paidTotalQ stu (getClassSessionsByStudent sid u st)) })
    ∧ getStudent "s1" 1 c2St = some c2Stu
    ∧ unpaidBalanceQ c2Stu (getClassSessionsByStudent "s1" 1 c2St) = 7 / 2
    ∧ getStudent "s1" 1 (recalculateStudentBalance "s1" 1 c2St)
        = some { c2Stu with balance := 4, totalPaid := 0 }
    ∧ jsRound (7 / 2 : ℚ) = 4
    ∧ perSessionRoundedBalance c2Stu (getClassSessionsByStudent "s1" 1 c2St) = 3 := by
  have hstu : getStudent "s1" 1 c2St = some c2Stu := by decide
  have hS : getClassSessionsByStudent "s1" 1 c2St = [c2a, c2b, c2c] := by decide
  have hq : unpaidBalanceQ c2Stu [c2a, c2b, c2c] = 7 / 2 := by
    norm_num [unpaidBalanceQ, List.filter, List.foldl, c2a, c2b, c2c, c2Stu]
  have hp : paidTotalQ c2Stu [c2a, c2b, c2c] = 0 := by
    norm_num [paidTotalQ, List.filter, List.foldl, c2a, c2b, c2c]
  have hr4 : jsRound (7 / 2 : ℚ) = 4 := by
    rw [jsRound_eq_floor]; norm_num
  have hr0 : jsRound (0 : ℚ) = 0 := by
    rw [jsRound_eq_floor]; norm_num
  refine ⟨fun st sid u stu h => getStudent_recalc_self st sid u stu h,
    hstu, by rw [hS]; exact hq, ?_, hr4, ?_⟩
  · rw [getStudent_recalc_self c2St "s1" 1 c2Stu hstu, hS, hq, hp, hr4, hr0]
  · rw [hS]
    norm_num [perSessionRoundedBalance, jsRound_eq_floor, List.filter,
      c2a, c2b, c2c, c2Stu]

/-- Witness for C2 at the three-session fixture. -/
theorem recalculateBalance_rounds_aggregate_once_witness :
    getStudent "s1" 1 c2St = some c2Stu
    ∧ getStudent "s1" 1 (recalculateStudentBalance "s1" 1 c2St) =
        some { c2Stu with
          balance := jsRound (unpaidBalanceQ c2Stu (getClassSessionsByStudent "s1" 1 c2St))
          totalPaid := jsRound (paidTotalQ c2Stu (getClassSessionsByStudent "s1" 1 c2St)) } :=
  ⟨by decide,
    (recalculateBalance_rounds_aggregate_once).1 c2St "s1" 1 c2Stu (by decide)⟩

/-- Counterexample to C3: at now = 561600 (Wednesday 1970-01-07 12:00:00
local), the session c3sess dated exactly Sunday 00:00:00 of the current
week (timestamp 259200, day-of-week 0, time-of-day 0, and its day index is
now's day index minus now's day-of-week) is NOT counted in
classesThisWeek, because setDate preserves now's time of day instead of
clamping startOfWeek to midnight. -/
theorem statsWeek_sundayMidnight_not_counted :
    dayOfWeek 259200 = 0 ∧ (259200 : Int) % 86400 = 0
    ∧ dayIndex 259200 = dayIndex 561600 - dayOfWeek 561600
    ∧ c3sess.date = 259200
    ∧ (getStats 561600 [] [c3sess]).classesThisWeek = 0 := by decide

/-- Claim C3 amended: startOfWeek is now minus now.dayOfWeek days with
now's time of day preserved (not clamped to start-of-day). A session dated
exactly at that instant counts in classesThisWeek; one dated the prior
Saturday 23:59:59 (one second before Sunday midnight) never counts; and
one dated Sunday 00:00:00 of the current week counts exactly when now's
own time of day is 00:00:00. -/
theorem statsWeek_window_keeps_time_of_day (now : Int) :
    inThisWeek now (startOfWeek now) = true
    ∧ inThisWeek now ((dayIndex now - dayOfWeek now) * 86400 - 1) = false
    ∧ (inThisWeek now ((dayIndex now - dayOfWeek now) * 86400) = true ↔ now % 86400 = 0) := by
  refine ⟨?_, ?_, ?_⟩ <;>
    simp only [inThisWeek, startOfWeek, dayOfWeek, dayIndex, decide_eq_true_eq,
      decide_eq_false_iff_not, not_le] <;>
    omega

/-- Counterexample to C6: a create request with durationMinutes = 0 passes
insertClassSessionSchema (which adds no positivity refinement), is
answered with 201, and the zero-duration session is persisted. -/
theorem postClasses_zero_duration_persisted :
    c6req.durationMinutes = 0
    ∧ (postClasses 1 "c1" 5 c6req (St.mk [] [])).1 = 201
    ∧ (postClasses 1 "c1" 5 c6req (St.mk [] [])).2.sessions
        = [{ id := "c1", userId := 1, date := 5, durationMinutes := 0, summary := ""
             studentIds := ["stu"], status := "completed", isPaid := false }] := by decide

/-- Claim C6 amended: insertClassSessionSchema constrains only the shape
of the payload, not the value of durationMinutes, so every well-typed
create request — non-positive durations included — is accepted with 201
and its session is persisted verbatim; the durationMinutes > 0 invariant
is not enforced. -/
theorem postClasses_accepts_any_duration (u : Int) (id : String) (now : Int)
    (ins : InsertClassSession) (st : St) :
    (postClasses u id now ins st).1 = 201
    ∧ (postClasses u id now ins st).2.sessions
        = st.sessions ++ [insertedSession u id now ins]
    ∧ (insertedSession u id now ins).durationMinutes = ins.durationMinutes := by
  refine ⟨rfl, ?_, rfl⟩
  show (createClassSession u id now ins st).sessions = _
  exact createClassSession_sessions u id now ins st

/-- Claim C7: a studentId matching no existing student contributes zero to
the stats revenue and to every earnings total, without any error, while
the session keeps contributing normally to totalStudents, classesThisWeek
and unpaidCount: dropping the dead id from the session changes neither the
stats object nor the earnings totals. -/
theorem deleted_student_contributes_zero (now : Int) (students : List Student)
    (pre post : List ClassSession) (c : ClassSession) (l1 l2 : List String)
    (sid : String) (hsplit : c.studentIds = l1 ++ sid :: l2)
    (hmiss : ∀ s ∈ students, s.id ≠ sid) :
    getStats now students (pre ++ c :: post)
      = getStats now students (pre ++ { c with studentIds := l1 ++ l2 } :: post)
    ∧ Earnings.totalEarned students (pre ++ c :: post)
        = Earnings.totalEarned students (pre ++ { c with studentIds := l1 ++ l2 } :: post)
    ∧ Earnings.totalPaid students (pre ++ c :: post)
        = Earnings.totalPaid students (pre ++ { c with studentIds := l1 ++ l2 } :: post)
    ∧ Earnings.totalUnpaid students (pre ++ c :: post)
        = Earnings.totalUnpaid students (pre ++ { c with studentIds := l1 ++ l2 } :: post) := by
  have hfind : students.find? (fun s => s.id == sid) = none := find?_id_none hmiss
  have hst : Earnings.sessionTotal students c
      = Earnings.sessionTotal students { c with studentIds := l1 ++ l2 } :=
    sessionTotal_skip students c sid l1 l2 hsplit hfind
  have hE := totalEarned_congr_mid students pre post c
    { c with studentIds := l1 ++ l2 } hst
  have hP := totalPaid_congr_mid students pre post c
    { c with studentIds := l1 ++ l2 } rfl hst
  refine ⟨?_, hE, hP, ?_⟩
  · exact getStats_congr_mid now students pre post c
      { c with studentIds := l1 ++ l2 } rfl rfl
      (fun acc => sessionRevenueInto_skip students c sid l1 l2 hsplit hfind acc)
  · simp only [Earnings.totalUnpaid, hE, hP]

/-- Witness for C7: one live student and a session listing that student
plus the dead id "gone". -/
theorem deleted_student_contributes_zero_witness :
    c7sess.studentIds = ["x"] ++ "gone" :: []
    ∧ (∀ s ∈ [c7stu], s.id ≠ "gone")
    ∧ (getStats 561600 [c7stu] ([] ++ c7sess :: [])
        = getStats 561600 [c7stu] ([] ++ { c7sess with studentIds := ["x"] ++ [] } :: [])
      ∧ Earnings.totalEarned [c7stu] ([] ++ c7sess :: [])
          = Earnings.totalEarned [c7stu]
              ([] ++ { c7sess with studentIds := ["x"] ++ [] } :: [])
      ∧ Earnings.totalPaid [c7stu] ([] ++ c7sess :: [])
          = Earnings.totalPaid [c7stu]
              ([] ++ { c7sess with studentIds := ["x"] ++ [] } :: [])
      ∧ Earnings.totalUnpaid [c7stu] ([] ++ c7sess :: [])
          = Earnings.totalUnpaid [c7stu]
              ([] ++ { c7sess with studentIds := ["x"] ++ [] } :: [])) :=
  ⟨by decide, by decide,
    deleted_student_contributes_zero 561600 [c7stu] [] [] c7sess ["x"] [] "gone"
      (by decide) (by decide)⟩

/-- Claim C8: over the full session history, the outstanding amount the
earnings view computes as totalEarned - totalPaid equals the direct sum of
the per-session formula over unpaid sessions only, and totalEarned splits
as collected plus outstanding. -/
theorem earnings_outstanding_is_unpaid_sum (students : List Student)
    (classes : List ClassSession) :
    Earnings.totalUnpaid students classes = Earnings.unpaidDirect students classes
    ∧ Earnings.totalEarned students classes
        = Earnings.totalPaid students classes + Earnings.totalUnpaid students classes := by
  have hE : Earnings.totalEarned students classes
      = Earnings.totalPaid students classes + Earnings.unpaidDirect students classes := by
    simp only [Earnings.totalEarned, Earnings.totalPaid, Earnings.unpaidDirect,
      foldl_add_eq_sum]
    rw [sum_map_filter_split (Earnings.sessionTotal students) (fun c => c.isPaid) classes]
    ring
  constructor
  · rw [Earnings.totalUnpaid, hE]
    ring
  · rw [Earnings.totalUnpaid]
    ring

/-- Claim C10: updateClassSession recalculates balances only for the ids
in the post-update studentIds list; a student whose id does not appear
there — in particular one removed from the session by the update — keeps a
stale record: every stored student row with that id is unchanged. -/
theorem updateClassSession_removed_student_stale (st : St) (id : String) (u : Int)
    (p : SessionPatch) (x : String)
    (hx : ((updateClassSession id u p st).1.all
      (fun sess => !sess.studentIds.contains x)) = true) :
    ((updateClassSession id u p st).2).students.filter (fun s => s.id == x)
      = st.students.filter (fun s => s.id == x) := by
  unfold updateClassSession at hx ⊢
  cases h : (st.sessions.filter (sessionMatches id u)).head? with
  | none => simp only [h]
  | some s0 =>
    simp only [h, Option.all_some] at hx ⊢
    have hnot : ∀ sid ∈ (applySessionPatch p s0).studentIds, sid ≠ x := by
      intro sid hs hplain
      subst hplain
      simp at hx
      exact hx hs
    rw [recalcFold_filter_frame u _ ?hdep _ ?hmiss]
    case hdep =>
      intro p' h1 h2 s
      simp [applyStudentPatch, h1]
    case hmiss =>
      intro sid hs s hq
      simp only [beq_iff_eq] at hq
      simp [studentMatches, hq]
      intro heq
      exact ((hnot sid hs) heq.symm).elim

/-- Witness for C10: updating session c (studentIds [x, y], with x holding
a stale balance of 77) to studentIds [y] leaves the record of x untouched. -/
theorem updateClassSession_removed_student_stale_witness :
    (updateClassSession "c" 1 ({ studentIds := some ["y"] } : SessionPatch) c10st).1
        = some { c10sess with studentIds := ["y"] }
    ∧ ((updateClassSession "c" 1 ({ studentIds := some ["y"] } : SessionPatch) c10st).1.all
        (fun sess => !sess.studentIds.contains "x")) = true
    ∧ ((updateClassSession "c" 1 ({ studentIds := some ["y"] } : SessionPatch) c10st).2).students.filter
          (fun s => s.id == "x")
        = c10st.students.filter (fun s => s.id == "x") :=
  ⟨by decide, by decide,
    updateClassSession_removed_student_stale c10st "c" 1
      ({ studentIds := some ["y"] } : SessionPatch) "x" (by decide)⟩

/-- Counterexample to C9: the PATCH routes hand the request body to
updateStudent unvalidated and Partial Student includes userId, so an
update performed with user 1's userId whose payload sets userId to 2
hands the record to user 2: afterwards user 2's student set has changed
(gained the record), violating the claimed isolation. -/
theorem storage_userId_patch_escapes_scope :
    Op.keepsOwner (Op.opUpdateStudent "a" { userId := some 2 }) = false
    ∧ getStudents 2 c9st = []
    ∧ getStudents 2 (runOps 1 [Op.opUpdateStudent "a" { userId := some 2 }] c9st)
        = [{ c9stu with userId := 2 }]
    ∧ getStudents 2 (runOps 1 [Op.opUpdateStudent "a" { userId := some 2 }] c9st)
        ≠ getStudents 2 c9st := by decide

/-- Claim C9 amended: every storage read is scoped to the caller's userId
(each returned record carries that userId), and any sequence of writes
performed with user u's userId — balance recalculations triggered by
session creates and updates included — leaves the student and session sets
of every other user v unchanged, PROVIDED no update payload sets the
userId column (the routes pass bodies through unvalidated, so a payload
that sets userId can reassign a record across users). -/
theorem storage_ops_scoped_to_userId (u v : Int) (ops : List Op) (st : St)
    (hv : v ≠ u) (hops : ∀ op ∈ ops, op.keepsOwner = true) :
    (getStudents v (runOps u ops st) = getStudents v st
      ∧ getClassSessions v (runOps u ops st) = getClassSessions v st)
    ∧ (∀ st' : St, ∀ s ∈ getStudents u st', s.userId = u)
    ∧ (∀ st' : St, ∀ c ∈ getClassSessions u st', c.userId = u)
    ∧ (∀ (st' : St) (id : String) (s : Student),
        getStudent id u st' = some s → s.userId = u)
    ∧ (∀ (st' : St) (id : String) (c : ClassSession),
        getClassSession id u st' = some c → c.userId = u)
    ∧ (∀ (st' : St) (sid : String) (c : ClassSession),
        c ∈ getClassSessionsByStudent sid u st' → c.userId = u) :=
  ⟨runOps_other_user u v hv ops hops st,
    fun st' => getStudents_scope u st',
    fun st' => getClassSessions_scope u st',
    fun st' id s => getStudent_scope id u st' s,
    fun st' id c => getClassSession_scope id u st' c,
    fun st' sid c => getClassSessionsByStudent_scope sid u st' c⟩

/-- Witness for the amended C9: user 1 runs a sequence covering all six
operation kinds over a store holding user 1's student; user 2's view is
untouched. -/
theorem storage_ops_scoped_to_userId_witness :
    ((2 : Int) ≠ 1) ∧ (∀ op ∈ c9ops, op.keepsOwner = true)
    ∧ ((getStudents 2 (runOps 1 c9ops c9st) = getStudents 2 c9st
        ∧ getClassSessions 2 (runOps 1 c9ops c9st) = getClassSessions 2 c9st)
      ∧ (∀ st' : St, ∀ s ∈ getStudents 1 st', s.userId = 1)
      ∧ (∀ st' : St, ∀ c ∈ getClassSessions 1 st', c.userId = 1)
      ∧ (∀ (st' : St) (id : String) (s : Student),
          getStudent id 1 st' = some s → s.userId = 1)
      ∧ (∀ (st' : St) (id : String) (c : ClassSession),
          getClassSession id 1 st' = some c → c.userId = 1)
      ∧ (∀ (st' : St) (sid : String) (c : ClassSession),
          c ∈ getClassSessionsByStudent sid 1 st' → c.userId = 1)) :=
  ⟨by decide, by decide,
    storage_ops_scoped_to_userId 1 2 c9ops c9st (by decide) (by decide)⟩

end TutorTrack
